import Mathlib

/-!
Shallow embedding of `gemini_orbit.py` (trip-planning service).

Conventions of the embedding:
* Python dict keys read with `d[k]` (raising `KeyError` when absent) on data
  whose presence varies across API responses are modelled as `Option` fields;
  reading them goes through an explicit `match` that produces
  `Except.error (PyErr.keyError k)` on `none`.
* Keys read with `d.get(k, default)` are `Option` fields read with `getD`.
* Numeric JSON values (scores, raw prices) are modelled as `Int`,
  `durationInMinutes` as `Nat` (the API reports nonnegative minute counts;
  Python floor-division and remainder by 60 agree with `Nat` `/` and `%` there).
* The ambient clock (`datetime.now()`) and the three network collaborators
  (airport lookup, flight search, LLM) are passed as explicit arguments.
-/

deriving instance DecidableEq for Except

namespace Orbit

/-- Python exceptions that the embedded code can raise. -/
inductive PyErr where
  | keyError (key : String)
  | valueError (msg : String)
  | typeError
  | jsonDecodeError
deriving DecidableEq

/-- The current date as read from `datetime.now()`. -/
structure PyDate where
  year : Nat
  month : Nat
  day : Nat
deriving DecidableEq

/-- `determine_travel_year` (src lines 19-35): pick this year or next so the
travel date is not in the past. The source reads `datetime.now()`; the
embedding takes the current date as the argument `now`. -/
def determine_travel_year (travel_month : Nat) (now : PyDate) : Nat :=
  if travel_month < now.month ∨ (travel_month = now.month ∧ now.day > 1) then
    now.year + 1
  else
    now.year

/-- One candidate record returned by the airport-lookup collaborator;
`entityId` / `skyId` are read with `.get`, hence `Option`. -/
structure AirportRec where
  entityId : Option String
  skyId : Option String
deriving DecidableEq

/-- `get_airport_ids` (src lines 44-53). The network call is factored out:
`data` is the JSON list the collaborator returned for `query`. -/
def get_airport_ids (query : String) (data : List AirportRec) :
    Except PyErr (Option String × Option String) :=
  match data with
  | airport_info :: _ => .ok (airport_info.entityId, airport_info.skyId)
  | [] => .error (.valueError ("No airport found for query: " ++ query))

/-- One marketing carrier entry (`leg['carriers']['marketing'][i]`). -/
structure Carrier where
  name : String
deriving DecidableEq

/-- `leg['carriers']`. -/
structure Carriers where
  marketing : List Carrier
deriving DecidableEq

/-- `segment['marketingCarrier']` (read with `.get`). -/
structure MarketingCarrierRef where
  alternateId : Option String
deriving DecidableEq

/-- One entry of `leg['segments']`. -/
structure Segment where
  flightNumber : Option String
  marketingCarrier : Option MarketingCarrierRef
deriving DecidableEq

/-- `leg['origin']` / `leg['destination']`. -/
structure Endpoint where
  city : String
  displayCode : String
deriving DecidableEq

/-- One leg of an itinerary. -/
structure Leg where
  carriers : Carriers
  segments : List Segment
  origin : Endpoint
  destination : Endpoint
  departure : String
  arrival : String
  durationInMinutes : Nat
deriving DecidableEq

/-- `itinerary['price']`: the raw numeric price and the display string. -/
structure Price where
  raw : Int
  formatted : String
deriving DecidableEq

/-- One raw itinerary from the flight-search response. `price` and `legs`
are read with `[]` (fatal when missing), `score` and `tags` with `.get`. -/
structure Itinerary where
  price : Option Price
  legs : Option (List Leg)
  score : Option Int
  tags : Option (List String)
deriving DecidableEq

/-- The flight-search response; `itineraries` is read with `[]` in
`process_flight_data` and with `.get(…, [])` in `extract_flight_details`. -/
structure FlightsData where
  itineraries : Option (List Itinerary)
deriving DecidableEq

/-- Flattened per-leg record built by `process_flight_data`
(Python keys `from` / `to` are `fromAirport` / `toAirport` here). -/
structure FormattedFlight where
  price : String
  fromAirport : String
  toAirport : String
  departure : String
  arrival : String
  duration : String
  airline : String
  flightNumber : String
  alternateId : String
deriving DecidableEq

/-- Value of a decimal digit character, `none` on a non-digit. -/
def digitVal (c : Char) : Option Nat :=
  if c.isDigit then some (c.toNat - 48) else none

/-- Two decimal digits as a number. -/
def twoDigits (a b : Char) : Option Nat :=
  match digitVal a, digitVal b with
  | some x, some y => some (10 * x + y)
  | _, _ => none

/-- Four decimal digits as a number. -/
def fourDigits (a b c d : Char) : Option Nat :=
  match twoDigits a b, twoDigits c d with
  | some x, some y => some (100 * x + y)
  | _, _ => none

/-- Gregorian leap-year rule (as in Python's `calendar.isleap`). -/
def isLeapYear (y : Nat) : Bool :=
  (y % 4 == 0 && y % 100 != 0) || y % 400 == 0

/-- Number of days of month `m` in year `y`. -/
def daysInMonth (y m : Nat) : Nat :=
  if m = 2 then (if isLeapYear y then 29 else 28)
  else if m = 4 ∨ m = 6 ∨ m = 9 ∨ m = 11 then 30
  else 31

/-- A `datetime.datetime` value (microseconds not modelled). -/
structure PyDateTime where
  year : Nat
  month : Nat
  day : Nat
  hour : Nat
  minute : Nat
  second : Nat
deriving DecidableEq

/-- The range checks performed by the `datetime` constructor. -/
def validDateTime (y mo d h mi s : Nat) : Bool :=
  decide (1 ≤ y ∧ 1 ≤ mo ∧ mo ≤ 12 ∧ 1 ≤ d ∧ d ≤ daysInMonth y mo ∧
          h ≤ 23 ∧ mi ≤ 59 ∧ s ≤ 59)

/-- Build a `PyDateTime`, failing (`ValueError`) on out-of-range components. -/
def mkDateTime (y mo d h mi s : Nat) : Option PyDateTime :=
  if validDateTime y mo d h mi s then some ⟨y, mo, d, h, mi, s⟩ else none

/-- `datetime.fromisoformat`, modelled on the subset of ISO-8601 strings the
flight-search API emits: `YYYY-MM-DD`, optionally followed by a one-character
separator and `HH:MM` or `HH:MM:SS` (fractional seconds and other stdlib
variants are omitted). Returns `none` where CPython raises `ValueError`. -/
def fromisoformat (str : String) : Option PyDateTime :=
  match str.data with
  | [y1, y2, y3, y4, '-', m1, m2, '-', d1, d2] =>
    match fourDigits y1 y2 y3 y4, twoDigits m1 m2, twoDigits d1 d2 with
    | some y, some mo, some d => mkDateTime y mo d 0 0 0
    | _, _, _ => none
  | [y1, y2, y3, y4, '-', m1, m2, '-', d1, d2, _, h1, h2, ':', n1, n2] =>
    match fourDigits y1 y2 y3 y4, twoDigits m1 m2, twoDigits d1 d2,
          twoDigits h1 h2, twoDigits n1 n2 with
    | some y, some mo, some d, some h, some n => mkDateTime y mo d h n 0
    | _, _, _, _, _ => none
  | [y1, y2, y3, y4, '-', m1, m2, '-', d1, d2, _, h1, h2, ':', n1, n2, ':', s1, s2] =>
    match fourDigits y1 y2 y3 y4, twoDigits m1 m2, twoDigits d1 d2,
          twoDigits h1 h2, twoDigits n1 n2, twoDigits s1 s2 with
    | some y, some mo, some d, some h, some n, some s => mkDateTime y mo d h n s
    | _, _, _, _, _, _ => none
  | _ => none

/-- Zero-pad to two digits (`%02d`, and `%m %d %H %M` of `strftime`). -/
def pad2 (n : Nat) : String :=
  if n < 10 then "0" ++ toString n else toString n

/-- Zero-pad to four digits (`%Y`; CPython's behaviour below year 1000 is
platform-dependent, modelled as zero-padded). -/
def pad4 (n : Nat) : String :=
  if n < 10 then "000" ++ toString n
  else if n < 100 then "00" ++ toString n
  else if n < 1000 then "0" ++ toString n
  else toString n

/-- `dt.strftime('%Y-%m-%d %H:%M')`. -/
def strftime_YmdHM (dt : PyDateTime) : String :=
  pad4 dt.year ++ "-" ++ pad2 dt.month ++ "-" ++ pad2 dt.day ++ " " ++
    pad2 dt.hour ++ ":" ++ pad2 dt.minute

/-- Body of the inner loop of `process_flight_data` (src lines 64-85): format
one leg of `itin`. Fallible accesses happen in source order: `['price']`
lookup, then `fromisoformat` on departure, then on arrival. -/
def format_leg (itin : Itinerary) (leg : Leg) : Except PyErr FormattedFlight :=
  let airline_name :=
    match leg.carriers.marketing with
    | [] => "Unknown Airline"
    | c :: _ => c.name
  let first_segment := leg.segments.head?
  let flight_number := (first_segment.bind Segment.flightNumber).getD "N/A"
  let alternate_id :=
    ((first_segment.bind Segment.marketingCarrier).bind
      MarketingCarrierRef.alternateId).getD "N/A"
  match itin.price with
  | none => .error (.keyError "price")
  | some pr =>
    match fromisoformat leg.departure with
    | none => .error (.valueError ("Invalid isoformat string: " ++ leg.departure))
    | some dep =>
      match fromisoformat leg.arrival with
      | none => .error (.valueError ("Invalid isoformat string: " ++ leg.arrival))
      | some arr =>
        .ok ⟨pr.formatted,
             leg.origin.city ++ " (" ++ leg.origin.displayCode ++ ")",
             leg.destination.city ++ " (" ++ leg.destination.displayCode ++ ")",
             strftime_YmdHM dep,
             strftime_YmdHM arr,
             toString (leg.durationInMinutes / 60) ++ "h " ++
               toString (leg.durationInMinutes % 60) ++ "m",
             airline_name,
             flight_number,
             alternate_id⟩

/-- Inner loop of `process_flight_data`: format every leg of `itin`,
stopping at the first exception. -/
def format_legs (itin : Itinerary) : List Leg → Except PyErr (List FormattedFlight)
  | [] => .ok []
  | leg :: rest =>
    match format_leg itin leg with
    | .error e => .error e
    | .ok ff =>
      match format_legs itin rest with
      | .error e => .error e
      | .ok ffs => .ok (ff :: ffs)

/-- Outer loop of `process_flight_data`: `itinerary['legs']` raises
`KeyError` when absent, then every leg is formatted in order. -/
def process_itineraries : List Itinerary → Except PyErr (List FormattedFlight)
  | [] => .ok []
  | itin :: rest =>
    match itin.legs with
    | none => .error (.keyError "legs")
    | some legs =>
      match format_legs itin legs with
      | .error e => .error e
      | .ok ffs =>
        match process_itineraries rest with
        | .error e => .error e
        | .ok more => .ok (ffs ++ more)

/-- `process_flight_data` (src lines 60-87): `data['itineraries']` raises
`KeyError` when absent; otherwise flatten itineraries × legs into
`FormattedFlight` records in order. -/
def process_flight_data (data : FlightsData) : Except PyErr (List FormattedFlight) :=
  match data.itineraries with
  | none => .error (.keyError "itineraries")
  | some its => process_itineraries its

/-- `flight.get('score', 0)`. -/
def scoreVal (f : Itinerary) : Int :=
  f.score.getD 0

/-- `t in flight.get('tags', [])`. -/
def hasTag (f : Itinerary) (t : String) : Bool :=
  (f.tags.getD []).contains t

/-- Loop body of `extract_flight_details` (src lines 94-107), updating the
triple `(best_overall, most_economical, shortest)` for one itinerary. -/
def selStep (acc : Option Itinerary × Option Itinerary × Option Itinerary)
    (flight : Itinerary) :
    Option Itinerary × Option Itinerary × Option Itinerary :=
  let best_overall := acc.1
  let most_economical := acc.2.1
  let shortest := acc.2.2
  let most_economical :=
    if hasTag flight "cheapest" then some flight else most_economical
  let shortest :=
    if hasTag flight "shortest" then some flight else shortest
  let best_overall :=
    match best_overall with
    | none => some flight
    | some b => if scoreVal flight > scoreVal b then some flight else some b
  (best_overall, most_economical, shortest)

/-- `extract_flight_details` (src lines 89-109): one pass over
`flights_data.get('itineraries', [])`, returning
`(best_overall, most_economical, shortest)`. -/
def extract_flight_details (flights_data : FlightsData) :
    Option Itinerary × Option Itinerary × Option Itinerary :=
  (flights_data.itineraries.getD []).foldl selStep (none, none, none)

/-- Spec-side: total duration of an itinerary, the sum of
`durationInMinutes` over all of its legs (spec section 4.4). -/
def totalDuration (f : Itinerary) : Nat :=
  (f.legs.getD []).foldl (fun a leg => a + leg.durationInMinutes) 0

/-- Spec-side: the earliest itinerary of `l` whose score (missing score
read as 0) is at least every itinerary's score, i.e. the first-encountered
highest-score itinerary. -/
def specBestOverall (l : List Itinerary) : Option Itinerary :=
  l.find? (fun f => decide (∀ g ∈ l, scoreVal g ≤ scoreVal f))

/-- Pipeline steps of `generate_trip_plan`, recorded in execution order;
`airportResolve` carries the query string passed to the lookup collaborator
and `flightFetch` the date string passed to the flight search. -/
inductive Step where
  | parse
  | dateResolve
  | airportResolve (query : String)
  | flightFetch (date : String)
  | select
  | narrate
  | format
deriving DecidableEq

/-- Result of reading the three fields off the JSON object the LLM returned:
`user_input.get('origin')`, `.get('destination')`, `.get('travel_month')`
(`none` models Python `None` for a missing field). -/
structure PIntent where
  origin : Option String
  destination : Option String
  travel_month : Option Nat
deriving DecidableEq

/-- The value `generate_trip_plan` returns (src lines 212-215). -/
structure TripPlanResult where
  flight_data : List FormattedFlight
  response : String
deriving DecidableEq

/-- Python string interpolation of a possibly-`None` value. -/
def pyStrOpt : Option String → String
  | some s => s
  | none => "None"

/-- `generate_trip_plan` (src lines 132-215), from the parse step on.
Arguments replacing ambient effects:
* `reply` — outcome of `json.loads` on the LLM text plus the three `.get`
  reads: `none` when the text is not valid JSON;
* `now` — the current date;
* `lookup q` — the list the airport-lookup collaborator returns for `q`;
* `search oSky dSky oEnt dEnt date` — the flight-search response;
* `narrate sel` — the second LLM call's text given the selected triple.
Returns the result (or the exception that propagates) together with the
list of pipeline steps that were executed, in order. -/
def generate_trip_plan (reply : Option PIntent) (now : PyDate)
    (lookup : String → List AirportRec)
    (search : String → String → String → String → String → FlightsData)
    (narrate : Option Itinerary × Option Itinerary × Option Itinerary → String) :
    Except PyErr TripPlanResult × List Step :=
  match reply with
  | none => (.error .jsonDecodeError, [.parse])
  | some p =>
    match p.travel_month with
    | none =>
      -- `determine_travel_year(None)` evaluates `None < current_month`: TypeError.
      (.error .typeError, [.parse, .dateResolve])
    | some m =>
      let travel_year := determine_travel_year m now
      let travel_date := toString travel_year ++ "-" ++ pad2 m ++ "-01"
      let origin_query := pyStrOpt p.origin
      let destination_query := pyStrOpt p.destination
      match get_airport_ids origin_query (lookup origin_query) with
      | .error e =>
        (.error e, [.parse, .dateResolve, .airportResolve origin_query])
      | .ok (origin_entity_id, origin_sky_id) =>
        match get_airport_ids destination_query (lookup destination_query) with
        | .error e =>
          (.error e, [.parse, .dateResolve, .airportResolve origin_query,
                      .airportResolve destination_query])
        | .ok (destination_entity_id, destination_sky_id) =>
          let flights_data :=
            search (pyStrOpt origin_sky_id) (pyStrOpt destination_sky_id)
              (pyStrOpt origin_entity_id) (pyStrOpt destination_entity_id)
              travel_date
          let sel := extract_flight_details flights_data
          let resp := narrate sel
          let steps0 := [Step.parse, Step.dateResolve,
                         Step.airportResolve origin_query,
                         Step.airportResolve destination_query,
                         Step.flightFetch travel_date, Step.select, Step.narrate]
          match process_flight_data flights_data with
          | .error e => (.error e, steps0)
          | .ok flights => (.ok ⟨flights, resp⟩, steps0 ++ [Step.format])

/-- The `best_overall` component of `selStep` in isolation. -/
def bestStep (acc : Option Itinerary) (flight : Itinerary) : Option Itinerary :=
  match acc with
  | none => some flight
  | some b => if scoreVal flight > scoreVal b then some flight else some b

/-- Total version of the `best_overall` fold once a first candidate `b` has
been adopted. -/
def best1 (b : Itinerary) : List Itinerary → Itinerary
  | [] => b
  | f :: t => best1 (if scoreVal f > scoreVal b then f else b) t

/-- Example itinerary tagged `cheapest` with raw price 150. -/
def cheap150 : Itinerary := ⟨some ⟨150, "$150"⟩, some [], none, some ["cheapest"]⟩

/-- Example itinerary tagged `cheapest` with raw price 200. -/
def cheap200 : Itinerary := ⟨some ⟨200, "$200"⟩, some [], none, some ["cheapest"]⟩

/-- Example leg of duration `n` minutes. -/
def legDur (n : Nat) : Leg :=
  ⟨⟨[]⟩, [], ⟨"A", "AAA"⟩, ⟨"B", "BBB"⟩,
   "2024-07-01T10:00:00", "2024-07-01T12:00:00", n⟩

/-- Example itinerary tagged `shortest` with total duration 100 (two legs). -/
def short100 : Itinerary :=
  ⟨some ⟨300, "$300"⟩, some [legDur 60, legDur 40], none, some ["shortest"]⟩

/-- Example itinerary tagged `shortest` with total duration 200 (one leg). -/
def short200 : Itinerary :=
  ⟨some ⟨300, "$300"⟩, some [legDur 200], none, some ["shortest"]⟩

/-- Example itinerary with score `n` and no tags. -/
def scoredIt (n : Int) : Itinerary := ⟨none, none, some n, none⟩

/-- Example itinerary with no score, no tags, no price, no legs. -/
def bareIt : Itinerary := ⟨none, none, none, none⟩

/-- Example leg exercising the formatter: 125 minutes, no marketing
carriers, no segments. -/
def legFmtEx : Leg :=
  ⟨⟨[]⟩, [], ⟨"Phoenix", "PHX"⟩, ⟨"Tokyo", "NRT"⟩,
   "2024-07-01T10:30:00", "2024-07-01T16:35:00", 125⟩

/-- Example itinerary wrapping `legFmtEx`. -/
def itinFmtEx : Itinerary := ⟨some ⟨150, "$150"⟩, some [legFmtEx], none, none⟩

/-- The record `process_flight_data` produces for `legFmtEx`. -/
def ffFmtEx : FormattedFlight :=
  ⟨"$150", "Phoenix (PHX)", "Tokyo (NRT)", "2024-07-01 10:30",
   "2024-07-01 16:35", "2h 5m", "Unknown Airline", "N/A", "N/A"⟩

/-- Example pipeline run whose LLM reply is valid JSON but has no `origin`
field; the airport lookup finds nothing. -/
def planMissingOrigin : Except PyErr TripPlanResult × List Step :=
  generate_trip_plan (some ⟨none, some "Tokyo", some 7⟩) ⟨2024, 3, 15⟩
    (fun _ => []) (fun _ _ _ _ _ => ⟨none⟩) (fun _ => "")

/-! ### Helper lemmas -/

/-- The triple fold of `extract_flight_details` splits into three
independent folds, one per selected itinerary. -/
theorem foldl_selStep_split :
    ∀ (l : List Itinerary) (b e s : Option Itinerary),
      l.foldl selStep (b, e, s) =
        (l.foldl bestStep b,
         l.foldl (fun acc f => if hasTag f "cheapest" then some f else acc) e,
         l.foldl (fun acc f => if hasTag f "shortest" then some f else acc) s) := by
  intro l
  induction l with
  | nil => intro b e s; rfl
  | cons f t ih =>
    intro b e s
    simp only [List.foldl_cons]
    rw [ih]
    rfl

/-- `getLast?` of a cons, phrased with `Option.or`. -/
theorem getLast?_cons_or {α : Type} (a : α) (l : List α) :
    (a :: l).getLast? = l.getLast?.or (some a) := by
  cases l with
  | nil => rfl
  | cons b t =>
    rw [List.getLast?_cons_cons]
    cases h : (b :: t).getLast? with
    | none =>
      exact absurd (List.getLast?_eq_none_iff.mp h) (List.cons_ne_nil b t)
    | some x => rfl

/-- A fold that overwrites its accumulator whenever the element satisfies
`p` computes the last element of the list satisfying `p` (keeping the
initial accumulator when none does). -/
theorem foldl_keepLast {α : Type} (p : α → Bool) :
    ∀ (l : List α) (e : Option α),
      l.foldl (fun acc f => if p f then some f else acc) e =
        ((l.filter p).getLast?).or e := by
  intro l
  induction l with
  | nil => intro e; rfl
  | cons f t ih =>
    intro e
    simp only [List.foldl_cons, List.filter_cons]
    by_cases hp : p f = true
    · rw [if_pos hp, if_pos hp, ih (some f), getLast?_cons_or, Option.or_assoc]
      rfl
    · rw [if_neg hp, if_neg hp]
      exact ih e

/-- Once a candidate is adopted, the `best_overall` fold is total. -/
theorem foldl_bestStep_some :
    ∀ (l : List Itinerary) (b : Itinerary),
      l.foldl bestStep (some b) = some (best1 b l) := by
  intro l
  induction l with
  | nil => intro b; rfl
  | cons f t ih =>
    intro b
    simp only [List.foldl_cons, best1]
    have hstep : bestStep (some b) f =
        some (if scoreVal f > scoreVal b then f else b) := by
      simp only [bestStep]
      exact (apply_ite some _ _ _).symm
    rw [hstep, ih]

/-- The adopted best itinerary is one of the candidates. -/
theorem best1_mem : ∀ (l : List Itinerary) (b : Itinerary), best1 b l ∈ b :: l := by
  intro l
  induction l with
  | nil => intro b; exact List.mem_singleton.mpr rfl
  | cons f t ih =>
    intro b
    simp only [best1]
    by_cases h : scoreVal f > scoreVal b
    · rw [if_pos h]
      rcases List.mem_cons.mp (ih f) with h1 | h1
      · exact List.mem_cons.mpr (Or.inr (List.mem_cons.mpr (Or.inl h1)))
      · exact List.mem_cons.mpr (Or.inr (List.mem_cons.mpr (Or.inr h1)))
    · rw [if_neg h]
      rcases List.mem_cons.mp (ih b) with h1 | h1
      · exact List.mem_cons.mpr (Or.inl h1)
      · exact List.mem_cons.mpr (Or.inr (List.mem_cons.mpr (Or.inr h1)))

/-- `find?` only depends on the predicate's values on the list. -/
theorem find?_congr_on {α : Type} :
    ∀ (l : List α) (p q : α → Bool), (∀ x ∈ l, p x = q x) →
      l.find? p = l.find? q := by
  intro l
  induction l with
  | nil => intro p q _; rfl
  | cons a t ih =>
    intro p q h
    have ha := h a (List.mem_cons_self a t)
    by_cases hp : p a = true
    · rw [List.find?_cons_of_pos _ hp, List.find?_cons_of_pos _ (ha ▸ hp)]
    · rw [List.find?_cons_of_neg _ hp, List.find?_cons_of_neg _ (ha ▸ hp)]
      exact ih p q (fun x hx => h x (List.mem_cons_of_mem a hx))

/-- `find?` on a cons whose head satisfies the predicate (with the
predicate explicit, for reliable instantiation). -/
theorem find?_cons_pos {α : Type} (p : α → Bool) (a : α) (l : List α)
    (h : p a = true) : (a :: l).find? p = some a := by
  rw [List.find?_cons, h]

/-- `find?` on a cons whose head falsifies the predicate. -/
theorem find?_cons_neg {α : Type} (p : α → Bool) (a : α) (l : List α)
    (h : p a = false) : (a :: l).find? p = l.find? p := by
  rw [List.find?_cons, h]

/-- The `best_overall` fold computes the earliest candidate whose score is
maximal among `b :: l`. -/
theorem find?_best1 :
    ∀ (l : List Itinerary) (b : Itinerary),
      (b :: l).find? (fun f => decide (∀ g ∈ b :: l, scoreVal g ≤ scoreVal f)) =
        some (best1 b l) := by
  intro l
  induction l with
  | nil =>
    intro b
    rw [find?_cons_pos (fun f => decide (∀ g ∈ [b], scoreVal g ≤ scoreVal f)) b []
      (by simp)]
    rfl
  | cons f t ih =>
    intro b
    set b' := if scoreVal f > scoreVal b then f else b with hb'
    have hbb' : scoreVal b ≤ scoreVal b' := by
      rw [hb']
      by_cases h : scoreVal f > scoreVal b
      · rw [if_pos h]; omega
      · rw [if_neg h]
    have hfb' : scoreVal f ≤ scoreVal b' := by
      rw [hb']
      by_cases h : scoreVal f > scoreVal b
      · rw [if_pos h]
      · rw [if_neg h]; omega
    have hb'mem : b' = b ∨ b' = f := by
      rw [hb']
      by_cases h : scoreVal f > scoreVal b
      · rw [if_pos h]; exact Or.inr rfl
      · rw [if_neg h]; exact Or.inl rfl
    have hiff : ∀ x, (∀ g ∈ b :: f :: t, scoreVal g ≤ scoreVal x) ↔
        (∀ g ∈ b' :: t, scoreVal g ≤ scoreVal x) := by
      intro x
      constructor
      · intro h g hg
        rcases List.mem_cons.mp hg with rfl | hgt
        · cases hb'mem with
          | inl h1 => rw [h1]; exact h b (by simp)
          | inr h1 => rw [h1]; exact h f (by simp)
        · exact h g (by simp [hgt])
      · intro h g hg
        have hx : scoreVal b' ≤ scoreVal x := h b' (by simp)
        rcases List.mem_cons.mp hg with rfl | hg2
        · exact le_trans hbb' hx
        · rcases List.mem_cons.mp hg2 with rfl | hg3
          · exact le_trans hfb' hx
          · exact h g (by simp [hg3])
    have hpq : ∀ x, (fun y => decide (∀ g ∈ b :: f :: t, scoreVal g ≤ scoreVal y)) x =
        (fun y => decide (∀ g ∈ b' :: t, scoreVal g ≤ scoreVal y)) x := by
      intro x
      exact decide_eq_decide.mpr (hiff x)
    rw [find?_congr_on _ _ _ (fun x _ => hpq x)]
    have hbest : best1 b (f :: t) = best1 b' t := by
      rw [best1, ← hb']
    rw [hbest]
    by_cases hfb : scoreVal f > scoreVal b
    · have hb'f : b' = f := by rw [hb', if_pos hfb]
      have hqb : (fun y => decide (∀ g ∈ b' :: t, scoreVal g ≤ scoreVal y)) b = false := by
        simp only [decide_eq_false_iff_not]
        intro hall
        have h1 := hall b' (by simp)
        rw [hb'f] at h1
        omega
      rw [find?_cons_neg (fun y => decide (∀ g ∈ b' :: t, scoreVal g ≤ scoreVal y))
        b (f :: t) hqb, hb'f]
      exact ih f
    · have hb'b : b' = b := by rw [hb', if_neg hfb]
      rw [hb'b]
      by_cases hq : ∀ g ∈ b :: t, scoreVal g ≤ scoreVal b
      · have hqb : (fun y => decide (∀ g ∈ b :: t, scoreVal g ≤ scoreVal y)) b = true := by
          simp only [decide_eq_true_eq]
          exact hq
        rw [find?_cons_pos (fun y => decide (∀ g ∈ b :: t, scoreVal g ≤ scoreVal y))
          b (f :: t) hqb]
        have hIH := ih b
        rw [find?_cons_pos (fun y => decide (∀ g ∈ b :: t, scoreVal g ≤ scoreVal y))
          b t hqb] at hIH
        exact hIH
      · have hqb : (fun y => decide (∀ g ∈ b :: t, scoreVal g ≤ scoreVal y)) b = false := by
          simp only [decide_eq_false_iff_not]
          exact hq
        have hqf : (fun y => decide (∀ g ∈ b :: t, scoreVal g ≤ scoreVal y)) f = false := by
          simp only [decide_eq_false_iff_not]
          intro hall
          apply hq
          intro g hg
          rcases List.mem_cons.mp hg with rfl | h1
          · exact le_refl _
          · have h2 := hall g (List.mem_cons_of_mem b h1)
            omega
        rw [find?_cons_neg (fun y => decide (∀ g ∈ b :: t, scoreVal g ≤ scoreVal y))
          b (f :: t) hqb,
          find?_cons_neg (fun y => decide (∀ g ∈ b :: t, scoreVal g ≤ scoreVal y))
          f t hqf]
        have hIH := ih b
        rw [find?_cons_neg (fun y => decide (∀ g ∈ b :: t, scoreVal g ≤ scoreVal y))
          b t hqb] at hIH
        exact hIH

/-- The `best_overall` fold from the empty accumulator computes the
spec-side earliest highest-score itinerary. -/
theorem bestFold_eq_specBest (l : List Itinerary) :
    l.foldl bestStep none = specBestOverall l := by
  cases l with
  | nil => rfl
  | cons f t =>
    rw [List.foldl_cons]
    have h0 : bestStep none f = some f := rfl
    rw [h0, foldl_bestStep_some]
    exact (find?_best1 t f).symm

/-- Every leg of a successfully formatted leg list contributes a record. -/
theorem format_legs_mem (itin : Itinerary) :
    ∀ (legs : List Leg) (ffs : List FormattedFlight),
      format_legs itin legs = .ok ffs →
      ∀ leg ∈ legs, ∃ ff ∈ ffs, format_leg itin leg = .ok ff := by
  intro legs
  induction legs with
  | nil =>
    intro ffs _ leg hmem
    exact absurd hmem (List.not_mem_nil leg)
  | cons l0 rest ih =>
    intro ffs hok leg hmem
    simp only [format_legs] at hok
    cases h0 : format_leg itin l0 with
    | error e => rw [h0] at hok; exact absurd hok (by simp)
    | ok ff0 =>
      rw [h0] at hok
      cases hr : format_legs itin rest with
      | error e => rw [hr] at hok; exact absurd hok (by simp)
      | ok ffs0 =>
        rw [hr] at hok
        have hffs : ffs = ff0 :: ffs0 := by
          cases hok
          rfl
        rcases List.mem_cons.mp hmem with rfl | hmem2
        · exact ⟨ff0, by simp [hffs], h0⟩
        · rcases ih ffs0 hr leg hmem2 with ⟨ff, hffmem, hffeq⟩
          exact ⟨ff, by simp [hffs, hffmem], hffeq⟩

/-- Every leg of every itinerary of a successfully processed response
contributes a record to the flattened output. -/
theorem process_itineraries_mem :
    ∀ (its : List Itinerary) (out : List FormattedFlight),
      process_itineraries its = .ok out →
      ∀ itin ∈ its, ∀ (legs : List Leg), itin.legs = some legs →
      ∀ leg ∈ legs, ∃ ff ∈ out, format_leg itin leg = .ok ff := by
  intro its
  induction its with
  | nil =>
    intro out _ itin hmem
    exact absurd hmem (List.not_mem_nil itin)
  | cons i0 rest ih =>
    intro out hok itin hmem legs hlegs leg hleg
    simp only [process_itineraries] at hok
    cases h0 : i0.legs with
    | none =>
      simp only [h0] at hok
      exact Except.noConfusion hok
    | some legs0 =>
      simp only [h0] at hok
      cases h1 : format_legs i0 legs0 with
      | error e =>
        simp only [h1] at hok
        exact Except.noConfusion hok
      | ok ffs0 =>
        simp only [h1] at hok
        cases h2 : process_itineraries rest with
        | error e =>
          simp only [h2] at hok
          exact Except.noConfusion hok
        | ok more =>
          simp only [h2] at hok
          have hout : out = ffs0 ++ more := by
            cases hok
            rfl
          rcases List.mem_cons.mp hmem with rfl | hmem2
          · have hl : legs = legs0 := by
              rw [h0] at hlegs
              exact (Option.some_injective _ hlegs).symm
            subst hl
            rcases format_legs_mem itin legs ffs0 h1 leg hleg with ⟨ff, hffmem, hffeq⟩
            exact ⟨ff, by simp [hout, hffmem], hffeq⟩
          · rcases ih more h2 itin hmem2 legs hlegs leg hleg with ⟨ff, hffmem, hffeq⟩
            exact ⟨ff, by simp [hout, hffmem], hffeq⟩

/-- Unfolding `format_leg` on a leg whose price is present and whose
timestamps parse. -/
theorem format_leg_ok (itin : Itinerary) (leg : Leg) (pr : Price)
    (dep arr : PyDateTime)
    (hpr : itin.price = some pr)
    (hdep : fromisoformat leg.departure = some dep)
    (harr : fromisoformat leg.arrival = some arr) :
    format_leg itin leg =
      .ok ⟨pr.formatted,
           leg.origin.city ++ " (" ++ leg.origin.displayCode ++ ")",
           leg.destination.city ++ " (" ++ leg.destination.displayCode ++ ")",
           strftime_YmdHM dep,
           strftime_YmdHM arr,
           toString (leg.durationInMinutes / 60) ++ "h " ++
             toString (leg.durationInMinutes % 60) ++ "m",
           (match leg.carriers.marketing with
            | [] => "Unknown Airline"
            | c :: _ => c.name),
           (leg.segments.head?.bind Segment.flightNumber).getD "N/A",
           ((leg.segments.head?.bind Segment.marketingCarrier).bind
             MarketingCarrierRef.alternateId).getD "N/A"⟩ := by
  unfold format_leg
  rw [hpr, hdep, harr]

/-! ### Claim C1 -/

/-- C1 counterexample: two itineraries both tagged `cheapest`, raw prices
150 then 200; the selector returns the one priced 200, not the lowest-priced
one, so `most_economical` is not the lowest-raw-price tagged itinerary. -/
theorem most_economical_ignores_price :
    (extract_flight_details ⟨some [cheap150, cheap200]⟩).2.1 = some cheap200 ∧
    (extract_flight_details ⟨some [cheap150, cheap200]⟩).2.1 ≠ some cheap150 ∧
    hasTag cheap150 "cheapest" = true ∧
    hasTag cheap200 "cheapest" = true ∧
    cheap150.price = some ⟨150, "$150"⟩ ∧
    cheap200.price = some ⟨200, "$200"⟩ ∧
    (150 : Int) < 200 := by
  decide

/-- C1 (amended): `most_economical` is the last-seen itinerary whose tag
list contains `"cheapest"` (the raw price is never consulted); in
particular on raw prices 200 then 150 it is the one priced 150. -/
theorem most_economical_last_cheapest_tagged :
    (∀ d : FlightsData,
       (extract_flight_details d).2.1 =
         ((d.itineraries.getD []).filter (fun f => hasTag f "cheapest")).getLast?) ∧
    (extract_flight_details ⟨some [cheap200, cheap150]⟩).2.1 = some cheap150 := by
  constructor
  · intro d
    show ((d.itineraries.getD []).foldl selStep (none, none, none)).2.1 = _
    rw [foldl_selStep_split]
    show (d.itineraries.getD []).foldl
      (fun acc f => if hasTag f "cheapest" then some f else acc) none = _
    rw [foldl_keepLast]
    exact Option.or_none
  · decide

/-! ### Claim C2 -/

/-- C2 counterexample: two itineraries both tagged `shortest`, total
durations 100 then 200 minutes; the selector returns the one of total
duration 200, not the lowest-total-duration one. -/
theorem shortest_ignores_duration :
    (extract_flight_details ⟨some [short100, short200]⟩).2.2 = some short200 ∧
    (extract_flight_details ⟨some [short100, short200]⟩).2.2 ≠ some short100 ∧
    hasTag short100 "shortest" = true ∧
    hasTag short200 "shortest" = true ∧
    totalDuration short100 = 100 ∧
    totalDuration short200 = 200 ∧
    totalDuration short100 < totalDuration short200 := by
  decide

/-- C2 (amended): `shortest` is the last-seen itinerary whose tag list
contains `"shortest"` (leg durations are never summed or compared). -/
theorem shortest_last_shortest_tagged :
    (∀ d : FlightsData,
       (extract_flight_details d).2.2 =
         ((d.itineraries.getD []).filter (fun f => hasTag f "shortest")).getLast?) ∧
    (extract_flight_details ⟨some [short200, short100]⟩).2.2 = some short100 := by
  constructor
  · intro d
    show ((d.itineraries.getD []).foldl selStep (none, none, none)).2.2 = _
    rw [foldl_selStep_split]
    show (d.itineraries.getD []).foldl
      (fun acc f => if hasTag f "shortest" then some f else acc) none = _
    rw [foldl_keepLast]
    exact Option.or_none
  · decide

/-! ### Claim C3 -/

/-- C3: `best_overall` is the earliest itinerary whose score (missing score
read as 0) is greatest — updates happen only on a strict improvement, so
ties keep the first-encountered candidate; on scores `[3, 7, 5]` the
itinerary scoring 7 is selected. -/
theorem best_overall_first_max_score :
    (∀ d : FlightsData,
       (extract_flight_details d).1 = specBestOverall (d.itineraries.getD [])) ∧
    (extract_flight_details ⟨some [scoredIt 3, scoredIt 7, scoredIt 5]⟩).1 =
      some (scoredIt 7) := by
  constructor
  · intro d
    show ((d.itineraries.getD []).foldl selStep (none, none, none)).1 = _
    rw [foldl_selStep_split]
    exact bestFold_eq_specBest _
  · decide

/-! ### Claim C4 -/

/-- C4: the Date Resolver returns `current_year + 1` exactly when the
travel month is before the current month, or equal to it with the current
day-of-month greater than 1; otherwise it returns `current_year`. -/
theorem determine_travel_year_rule (m : Nat) (now : PyDate)
    (_h1 : 1 ≤ m) (_h2 : m ≤ 12) :
    (determine_travel_year m now = now.year + 1 ↔
       (m < now.month ∨ (m = now.month ∧ 1 < now.day))) ∧
    (determine_travel_year m now = now.year ↔
       ¬ (m < now.month ∨ (m = now.month ∧ 1 < now.day))) := by
  by_cases h : m < now.month ∨ (m = now.month ∧ 1 < now.day)
  · unfold determine_travel_year
    rw [if_pos h]
    exact ⟨⟨fun _ => h, fun _ => rfl⟩,
           ⟨fun he => absurd he (by omega), fun hn => absurd h hn⟩⟩
  · unfold determine_travel_year
    rw [if_neg h]
    exact ⟨⟨fun he => absurd he (by omega), fun hh => absurd hh h⟩,
           ⟨fun _ => h, fun _ => rfl⟩⟩

/-- C4 witness: on 2024-03-15, travel month 3 (same month, day 15 > 1)
resolves to 2025, and travel month 7 (later month) resolves to 2024. -/
theorem determine_travel_year_rule_witness :
    determine_travel_year 3 ⟨2024, 3, 15⟩ = 2025 ∧
    determine_travel_year 7 ⟨2024, 3, 15⟩ = 2024 :=
  ⟨(determine_travel_year_rule 3 ⟨2024, 3, 15⟩ (by norm_num) (by norm_num)).1.mpr
      (Or.inr ⟨rfl, by norm_num⟩),
   (determine_travel_year_rule 7 ⟨2024, 3, 15⟩ (by norm_num) (by norm_num)).2.mpr
      (by decide)⟩

/-! ### Claim C6 -/

/-- C6: on a response whose `itineraries` key maps to the empty list, the
selector returns the all-null triple and the formatter returns the empty
sequence; neither raises (both return normally). -/
theorem empty_itineraries_all_null (d : FlightsData)
    (h : d.itineraries = some []) :
    extract_flight_details d = (none, none, none) ∧
    process_flight_data d = .ok [] := by
  constructor
  · unfold extract_flight_details
    rw [h]
    rfl
  · unfold process_flight_data
    rw [h]
    rfl

/-- C6 witness at the concrete empty-list response. -/
theorem empty_itineraries_all_null_witness :
    extract_flight_details ⟨some []⟩ = (none, none, none) ∧
    process_flight_data ⟨some []⟩ = .ok [] :=
  empty_itineraries_all_null ⟨some []⟩ rfl

/-! ### Claim C7 -/

/-- C7: on a response lacking the `itineraries` key, the formatter raises
`KeyError` and produces no partial records (the `Except` carries no
output). -/
theorem missing_itineraries_fatal (d : FlightsData)
    (h : d.itineraries = none) :
    process_flight_data d = .error (.keyError "itineraries") := by
  unfold process_flight_data
  rw [h]

/-- C7 witness at the concrete keyless response. -/
theorem missing_itineraries_fatal_witness :
    process_flight_data ⟨none⟩ = .error (.keyError "itineraries") :=
  missing_itineraries_fatal ⟨none⟩ rfl

/-! ### Claim C8 -/

/-- C8: with one or more candidate records the Airport Resolver returns the
first record's `entityId` and `skyId`; with zero records it fails with a
not-found error whose message carries the original query text. -/
theorem get_airport_ids_contract :
    (∀ (q : String) (a : AirportRec) (rest : List AirportRec),
       get_airport_ids q (a :: rest) = .ok (a.entityId, a.skyId)) ∧
    (∀ q : String,
       get_airport_ids q [] =
         .error (.valueError ("No airport found for query: " ++ q))) ∧
    (∀ q : String, ∃ pre : String,
       get_airport_ids q [] = .error (.valueError (pre ++ q))) :=
  ⟨fun _ _ _ => rfl, fun _ => rfl,
   fun _ => ⟨"No airport found for query: ", rfl⟩⟩

/-! ### Claim C9 -/

/-- C9: every leg of a successfully processed response yields a record
whose price is the itinerary's pre-formatted display string, whose
endpoints are rendered `"<city> (<displayCode>)"`, whose timestamps are the
parsed ISO-8601 departure/arrival reformatted as `"YYYY-MM-DD HH:MM"`,
whose duration is `"<h>h <m>m"` via division and remainder by 60, and whose
airline is the first marketing carrier's name, or `"Unknown Airline"` when
the marketing list is empty. -/
theorem flight_formatter_leg_fields (d : FlightsData) (its : List Itinerary)
    (itin : Itinerary) (legs : List Leg) (leg : Leg)
    (out : List FormattedFlight) (pr : Price) (dep arr : PyDateTime)
    (hits : d.itineraries = some its) (hmem : itin ∈ its)
    (hlegs : itin.legs = some legs) (hleg : leg ∈ legs)
    (hpr : itin.price = some pr)
    (hdep : fromisoformat leg.departure = some dep)
    (harr : fromisoformat leg.arrival = some arr)
    (hout : process_flight_data d = .ok out) :
    ∃ ff ∈ out,
      ff.price = pr.formatted ∧
      ff.fromAirport = leg.origin.city ++ " (" ++ leg.origin.displayCode ++ ")" ∧
      ff.toAirport = leg.destination.city ++ " (" ++ leg.destination.displayCode ++ ")" ∧
      ff.departure = strftime_YmdHM dep ∧
      ff.arrival = strftime_YmdHM arr ∧
      (∃ hrs mins, leg.durationInMinutes = 60 * hrs + mins ∧ mins < 60 ∧
        ff.duration = toString hrs ++ "h " ++ toString mins ++ "m") ∧
      (leg.carriers.marketing = [] → ff.airline = "Unknown Airline") ∧
      (∀ c cs, leg.carriers.marketing = c :: cs → ff.airline = c.name) := by
  have hpi : process_itineraries its = .ok out := by
    simp only [process_flight_data, hits] at hout
    exact hout
  rcases process_itineraries_mem its out hpi itin hmem legs hlegs leg hleg with
    ⟨ff, hffmem, hffeq⟩
  rw [format_leg_ok itin leg pr dep arr hpr hdep harr] at hffeq
  have hff := (Except.ok.injEq _ _).mp hffeq
  refine ⟨ff, hffmem, ?_⟩
  rw [← hff]
  refine ⟨rfl, rfl, rfl, rfl, rfl, ?_, ?_, ?_⟩
  · exact ⟨leg.durationInMinutes / 60, leg.durationInMinutes % 60,
      (Nat.div_add_mod leg.durationInMinutes 60).symm,
      Nat.mod_lt _ (by norm_num), rfl⟩
  · intro hmk
    simp [hmk]
  · intro c cs hmk
    simp [hmk]

/-- C9 witness: a leg of 125 minutes with an empty marketing-carrier list
formats to duration `"2h 5m"` and airline `"Unknown Airline"`, with all
field equations instantiated at that leg. -/
theorem flight_formatter_leg_fields_witness :
    process_flight_data ⟨some [itinFmtEx]⟩ = .ok [ffFmtEx] ∧
    ffFmtEx.duration = "2h 5m" ∧
    ffFmtEx.airline = "Unknown Airline" ∧
    ffFmtEx.departure = "2024-07-01 10:30" ∧
    (∃ ff ∈ [ffFmtEx],
      ff.price = (⟨150, "$150"⟩ : Price).formatted ∧
      ff.fromAirport = legFmtEx.origin.city ++ " (" ++ legFmtEx.origin.displayCode ++ ")" ∧
      ff.toAirport = legFmtEx.destination.city ++ " (" ++ legFmtEx.destination.displayCode ++ ")" ∧
      ff.departure = strftime_YmdHM ⟨2024, 7, 1, 10, 30, 0⟩ ∧
      ff.arrival = strftime_YmdHM ⟨2024, 7, 1, 16, 35, 0⟩ ∧
      (∃ hrs mins, legFmtEx.durationInMinutes = 60 * hrs + mins ∧ mins < 60 ∧
        ff.duration = toString hrs ++ "h " ++ toString mins ++ "m") ∧
      (legFmtEx.carriers.marketing = [] → ff.airline = "Unknown Airline") ∧
      (∀ c cs, legFmtEx.carriers.marketing = c :: cs → ff.airline = c.name)) :=
  ⟨rfl, rfl, rfl, rfl,
   flight_formatter_leg_fields ⟨some [itinFmtEx]⟩ [itinFmtEx] itinFmtEx
     [legFmtEx] legFmtEx [ffFmtEx] ⟨150, "$150"⟩ ⟨2024, 7, 1, 10, 30, 0⟩
     ⟨2024, 7, 1, 16, 35, 0⟩ rfl (by simp) rfl (by simp) rfl rfl rfl rfl⟩

/-! ### Claim C10 -/

/-- C10: a non-empty itineraries list always yields a non-null
`best_overall` (the first itinerary is adopted unconditionally; itineraries
without a `score` field compare with default 0). -/
theorem best_overall_some_of_nonempty (d : FlightsData) (its : List Itinerary)
    (hits : d.itineraries = some its) (hne : its ≠ []) :
    ∃ b, (extract_flight_details d).1 = some b ∧ b ∈ its := by
  cases its with
  | nil => exact absurd rfl hne
  | cons f t =>
    refine ⟨best1 f t, ?_, best1_mem t f⟩
    show ((d.itineraries.getD []).foldl selStep (none, none, none)).1 = _
    rw [hits]
    show ((f :: t).foldl selStep (none, none, none)).1 = _
    rw [foldl_selStep_split]
    show (f :: t).foldl bestStep none = _
    rw [List.foldl_cons]
    show t.foldl bestStep (some f) = _
    exact foldl_bestStep_some t f

/-- C10 witness: a single itinerary with no score and no tags still becomes
`best_overall`. -/
theorem best_overall_some_of_nonempty_witness :
    ∃ b, (extract_flight_details ⟨some [bareIt]⟩).1 = some b ∧ b ∈ [bareIt] :=
  best_overall_some_of_nonempty ⟨some [bareIt]⟩ [bareIt] rfl (by simp)

/-! ### Claim C5 -/

/-- C5 counterexample: a valid-JSON reply missing the required `origin`
field does not fail with a parse error and does not stop before the
downstream pipeline: airport resolution runs with the literal query
`"None"` and the failure is the resolver's not-found `ValueError`. -/
theorem parse_missing_field_reaches_resolver :
    Step.airportResolve "None" ∈ planMissingOrigin.2 ∧
    planMissingOrigin.1 = .error (.valueError "No airport found for query: None") ∧
    planMissingOrigin.1 ≠ .error .jsonDecodeError ∧
    planMissingOrigin.1 ≠ .error .typeError := by
  decide

/-- C5 (amended): a reply that is not valid JSON is a fatal parse error and
no later step runs; a valid-JSON reply missing `travel_month` aborts with a
`TypeError` at date resolution, before airport resolution or flight fetch;
a valid-JSON reply missing `origin` is not rejected — the pipeline proceeds
and executes airport resolution with the literal query `"None"`. -/
theorem parse_step_error_behaviour :
    (∀ (now : PyDate) (lookup : String → List AirportRec)
       (search : String → String → String → String → String → FlightsData)
       (narrate : Option Itinerary × Option Itinerary × Option Itinerary → String),
       generate_trip_plan none now lookup search narrate =
         (.error .jsonDecodeError, [.parse])) ∧
    (∀ (p : PIntent) (now : PyDate) (lookup : String → List AirportRec)
       (search : String → String → String → String → String → FlightsData)
       (narrate : Option Itinerary × Option Itinerary × Option Itinerary → String),
       p.travel_month = none →
       generate_trip_plan (some p) now lookup search narrate =
         (.error .typeError, [.parse, .dateResolve])) ∧
    (∀ (p : PIntent) (now : PyDate) (lookup : String → List AirportRec)
       (search : String → String → String → String → String → FlightsData)
       (narrate : Option Itinerary × Option Itinerary × Option Itinerary → String)
       (m : Nat),
       p.travel_month = some m → p.origin = none →
       Step.airportResolve "None" ∈
         (generate_trip_plan (some p) now lookup search narrate).2) := by
  refine ⟨fun now lookup search narrate => rfl, ?_, ?_⟩
  · intro p now lookup search narrate h
    simp only [generate_trip_plan, h]
  · intro p now lookup search narrate m hm ho
    simp only [generate_trip_plan, hm, ho, pyStrOpt]
    split
    · simp
    · split
      · simp
      · split
        · simp
        · simp

/-- C5 witness: with `travel_month` missing the run stops at date
resolution with a `TypeError`; with `origin` missing the run reaches
airport resolution with query `"None"`. -/
theorem parse_step_error_behaviour_witness :
    generate_trip_plan (some ⟨some "Phoenix", some "Tokyo", none⟩) ⟨2024, 3, 15⟩
        (fun _ => []) (fun _ _ _ _ _ => ⟨none⟩) (fun _ => "") =
      (.error .typeError, [.parse, .dateResolve]) ∧
    Step.airportResolve "None" ∈
      (generate_trip_plan (some ⟨none, some "Tokyo", some 7⟩) ⟨2024, 3, 15⟩
        (fun _ => []) (fun _ _ _ _ _ => ⟨none⟩) (fun _ => "")).2 :=
  ⟨parse_step_error_behaviour.2.1 ⟨some "Phoenix", some "Tokyo", none⟩
      ⟨2024, 3, 15⟩ (fun _ => []) (fun _ _ _ _ _ => ⟨none⟩) (fun _ => "") rfl,
   parse_step_error_behaviour.2.2 ⟨none, some "Tokyo", some 7⟩
      ⟨2024, 3, 15⟩ (fun _ => []) (fun _ _ _ _ _ => ⟨none⟩) (fun _ => "") 7 rfl rfl⟩

end Orbit
